import Mathlib

/-!
Shallow embedding of the analytical and simulation engine of `simu.py`
(crypto paper-trading trainer): indicator computation (Bollinger bands,
simple-moving-average RSI), the "Three Elements of Limit Up" pattern
detector, and the stateful trading simulator.

Conventions of the embedding:
* Python floats are modelled as exact rationals `ℚ`; the float literal
  `1.09` is the rational `109/100`.
* A pandas `Series` column is a `List ℚ` (or `List Bar` for the OHLCV
  frame); a cell that pandas would hold as `NaN` is `none` in an
  `Option`-valued column.
* IEEE division is made explicit where the source relies on it:
  in `calculate_rsi`, pandas evaluates `gain/0 = +inf` for `gain > 0`
  (so `100 - 100/(1 + inf) = 100`) and `0/0 = NaN`; the embedding
  branches on those cases explicitly.
* `random.randint(lo, hi)` is modelled by `randint lo hi r` where `r` is
  an arbitrary source of randomness supplied as a parameter.
* Out-of-range `df.iloc[idx]` raises in the source; the embedding totalises
  the lookup with a default bar, and every theorem that reads a bar
  carries an in-range hypothesis.
-/

namespace Simu

/-- One OHLCV row of the fetched dataframe.  The `open` column is renamed
`open_` because `open` is a Lean keyword. -/
structure Bar where
  open_ : ℚ
  high : ℚ
  low : ℚ
  close : ℚ
  volume : ℚ
deriving DecidableEq, Repr

instance : Inhabited Bar := ⟨⟨0, 0, 0, 0, 0⟩⟩

/-! ## IndicatorEngine: `calculate_indicators` (simu.py lines 30-48) -/

/-- Arithmetic mean of a list, as used by pandas `.mean()` on a window. -/
def mean (l : List ℚ) : ℚ := l.sum / l.length

/-- Sample variance (pandas `.std()` uses `ddof=1`, i.e. the Bessel-corrected
divisor `length - 1`); `std` is its square root. -/
def sampleVar (l : List ℚ) : ℚ :=
  ((l.map (fun x => (x - mean l) ^ 2)).sum) / ((l.length - 1 : ℕ) : ℚ)

/-- The 20-row rolling window of `close` ending at row `i`:
`close[i-19..i]`, which pandas `rolling(window=20)` aggregates when all
20 observations exist (`i ≥ 19`). -/
def window20 (close : List ℚ) (i : ℕ) : List ℚ :=
  (close.drop (i - 19)).take 20

/-- `df['middle_band'] = df['close'].rolling(window=20).mean()`:
`NaN` (here `none`) until 20 observations exist. -/
def middle_band (close : List ℚ) (i : ℕ) : Option ℚ :=
  if 19 ≤ i ∧ i < close.length then some (mean (window20 close i)) else none

/-- `df['std'] = df['close'].rolling(window=20).std()` (sample standard
deviation, `ddof=1`). -/
noncomputable def std (close : List ℚ) (i : ℕ) : Option ℝ :=
  if 19 ≤ i ∧ i < close.length then
    some (Real.sqrt ((sampleVar (window20 close i) : ℚ) : ℝ))
  else none

/-- `df['upper_band'] = df['middle_band'] + (df['std'] * 2)`. -/
noncomputable def upper_band (close : List ℚ) (i : ℕ) : Option ℝ :=
  match middle_band close i, std close i with
  | some m, some s => some ((m : ℝ) + s * 2)
  | _, _ => none

/-- `df['lower_band'] = df['middle_band'] - (df['std'] * 2)`. -/
noncomputable def lower_band (close : List ℚ) (i : ℕ) : Option ℝ :=
  match middle_band close i, std close i with
  | some m, some s => some ((m : ℝ) - s * 2)
  | _, _ => none

/-! ## RSI: `calculate_rsi` (simu.py lines 38-46) -/

/-- `delta = data.diff()`: `NaN` at row 0, else `close[j] - close[j-1]`. -/
def delta (close : List ℚ) (j : ℕ) : Option ℚ :=
  if j = 0 ∨ close.length ≤ j then none
  else some (close.getD j 0 - close.getD (j - 1) 0)

/-- `delta.where(delta > 0, 0)`: keeps positive deltas, replaces the rest —
including the `NaN` at row 0, which compares false — by `0`. -/
def gain (close : List ℚ) (j : ℕ) : ℚ :=
  match delta close j with
  | some d => if 0 < d then d else 0
  | none => 0

/-- `(-delta.where(delta < 0, 0))`: keeps negative deltas then negates,
so the loss column is non-negative; the `NaN` at row 0 becomes `0`. -/
def loss (close : List ℚ) (j : ℕ) : ℚ :=
  match delta close j with
  | some d => if d < 0 then -d else 0
  | none => 0

/-- The gain column as a series aligned with `close`. -/
def gainSeries (close : List ℚ) : List ℚ := (List.range close.length).map (gain close)

/-- The loss column as a series aligned with `close`. -/
def lossSeries (close : List ℚ) : List ℚ := (List.range close.length).map (loss close)

/-- `col.rolling(window=p).mean()` at row `i`: the mean of `col[i-p+1..i]`,
defined once `p` observations exist (`i ≥ p - 1`) and `i` is a real row. -/
def rollingMeanAt (p : ℕ) (col : List ℚ) (i : ℕ) : Option ℚ :=
  if p ≤ i + 1 ∧ i < col.length then
    some (((col.drop (i + 1 - p)).take p).sum / (p : ℚ))
  else none

/-- `gain.rolling(window=periods).mean()`. -/
def avgGain (p : ℕ) (close : List ℚ) (i : ℕ) : Option ℚ :=
  rollingMeanAt p (gainSeries close) i

/-- `loss.rolling(window=periods).mean()`. -/
def avgLoss (p : ℕ) (close : List ℚ) (i : ℕ) : Option ℚ :=
  rollingMeanAt p (lossSeries close) i

/-- `rs = gain / loss; return 100 - (100 / (1 + rs))`, with the IEEE
division semantics the source relies on made explicit: for
`avgLoss = 0` and `avgGain > 0`, `rs = +inf` and the result is `100`;
for `avgLoss = 0 = avgGain`, `rs = NaN` and the result is `NaN` (`none`). -/
def calculate_rsi (p : ℕ) (close : List ℚ) (i : ℕ) : Option ℚ :=
  match avgGain p close i, avgLoss p close i with
  | some g, some l =>
      if l = 0 then (if 0 < g then some 100 else none)
      else some (100 - 100 / (1 + g / l))
  | _, _ => none

/-- `df['rsi_13'] = calculate_rsi(df['close'], 13)`. -/
def rsi_13 (close : List ℚ) (i : ℕ) : Option ℚ := calculate_rsi 13 close i

/-- `df['rsi_42'] = calculate_rsi(df['close'], 42)`. -/
def rsi_42 (close : List ℚ) (i : ℕ) : Option ℚ := calculate_rsi 42 close i

/-! ## PatternDetector (simu.py lines 363-388) -/

/-- `is_three_elements_pattern(window)` on a 5-bar slice: `window.iloc[0]`
is the candidate limit-up candle, `window.iloc[1:4]` the three pullback
candles, `window.iloc[-1]` (the fifth bar of the slice) the engulfing
candle.  The float literal `1.09` is the rational `109/100`. -/
def is_three_elements_pattern (w : List Bar) : Bool :=
  let first := w.getD 0 default
  if ¬ (first.close > first.open_ * (109 / 100 : ℚ)) then false
  else
    let half_position := (first.high + first.low) / 2
    if (w.getD 1 default).low < half_position ∨ (w.getD 2 default).low < half_position ∨
        (w.getD 3 default).low < half_position then false
    else
      let last_candle := w.getD 4 default
      if ¬ (last_candle.close > last_candle.open_ ∧
            last_candle.high >
              max (max (w.getD 1 default).high (w.getD 2 default).high) (w.getD 3 default).high ∧
            last_candle.low <
              min (min (w.getD 1 default).low (w.getD 2 default).low) (w.getD 3 default).low) then
        false
      else true

/-- `find_three_elements_signals(df)`: for `i in range(4, len(df))`, test the
slice `df.iloc[i-4:i+1]` and collect `(i, 'buy')` for every match. -/
def find_three_elements_signals (df : List Bar) : List (ℕ × String) :=
  (List.range' 4 (df.length - 4)).filterMap
    (fun i =>
      if is_three_elements_pattern ((df.drop (i - 4)).take 5) then some (i, "buy") else none)

/-! ## SimulationEngine: `TradingSimulator` state (simu.py lines 125-235) -/

/-- A structured view of one line of `self.trade_log` (the source stores the
formatted string; the entry carries exactly the data interpolated into it). -/
inductive TradeEntry where
  | bought (qty price : ℚ)
  | sold (qty price profit_loss : ℚ)
deriving DecidableEq, Repr

/-- A trade mark: `'B'` for buys, `'S'` for sells. -/
inductive MarkKind where
  | B
  | S
deriving DecidableEq, Repr

/-- The engine-relevant mutable fields of `TradingSimulator`.  The cursor is
an `ℤ` because Python subtraction `len(self.df) - 100` can go negative.
`buttonsEnabled` models the enabled/disabled state of the four trading
buttons (`disable_trading_buttons` / `enable_trading_buttons`): it is the
Active/Terminal flag, since a disabled button can emit no click. -/
structure SimState where
  symbol : String
  timeframe : String
  df : List Bar
  current_index : ℤ
  balance : ℚ
  crypto_holdings : ℚ
  trade_log : List TradeEntry
  trade_marks : List (ℤ × MarkKind)
  buttonsEnabled : Bool
deriving DecidableEq, Repr

/-- Python `df.iloc[i]` with negative-index wrap-around; `none` for an index
that would raise `IndexError`. -/
def pyIloc (df : List Bar) (i : ℤ) : Option Bar :=
  if 0 ≤ i then df[i.toNat]?
  else if 0 ≤ (df.length : ℤ) + i then df[((df.length : ℤ) + i).toNat]?
  else none

/-- `current_data = self.df.iloc[self.current_index]; current_data['close']`.
Totalised with the default bar; theorems reading it carry an in-range
hypothesis. -/
def currentClose (s : SimState) : ℚ := ((pyIloc s.df s.current_index).getD default).close

/-- Model of `random.randint(lo, hi)` (both ends inclusive): `r` is an
arbitrary source of randomness reduced into the requested range. -/
def randint (lo hi : ℤ) (r : ℕ) : ℤ := lo + (r : ℤ) % (hi - lo + 1)

/-- The starting-cursor computation duplicated verbatim in
`TradingSimulator.__init__` (lines 130-137) and `change_trading_pair`
(lines 178-185): `min_index = 42; max_index = len(df) - 100;
randint(min_index, max_index) if max_index > min_index else min_index`. -/
def startIndex (n : ℕ) (r : ℕ) : ℤ :=
  let min_index : ℤ := 42
  let max_index : ℤ := (n : ℤ) - 100
  if min_index < max_index then randint min_index max_index r else min_index

/-- `TradingSimulator.__init__` (lines 125-145): default pair `BTC/USDT`,
timeframe `1d`, freshly fetched+enriched series `df`, randomized starting
cursor, balance 1000, no holdings, empty log and marks, buttons enabled. -/
def initSimState (df : List Bar) (r : ℕ) : SimState :=
  { symbol := "BTC/USDT"
    timeframe := "1d"
    df := df
    current_index := startIndex df.length r
    balance := 1000
    crypto_holdings := 0
    trade_log := []
    trade_marks := []
    buttonsEnabled := true }

/-- The three user actions routed into `action_clicked`. -/
inductive TradeAction where
  | buy
  | sell
  | hold
deriving DecidableEq, Repr

/-- The balance/holdings/log/marks mutation of `action_clicked` (lines
205-219), before the cursor advance.  `hold` falls through both guarded
branches. -/
def applyAction (a : TradeAction) (s : SimState) : SimState :=
  match a with
  | .buy =>
      if 0 < s.balance then
        let crypto_bought := s.balance / currentClose s
        { s with crypto_holdings := s.crypto_holdings + crypto_bought
                 balance := 0
                 trade_log := s.trade_log ++ [.bought crypto_bought (currentClose s)]
                 trade_marks := s.trade_marks ++ [(s.current_index, .B)] }
      else s
  | .sell =>
      if 0 < s.crypto_holdings then
        let proceeds := s.crypto_holdings * currentClose s
        { s with balance := proceeds
                 crypto_holdings := 0
                 trade_log := s.trade_log ++
                   [.sold s.crypto_holdings (currentClose s) ((proceeds - 1000) / 1000 * 100)]
                 trade_marks := s.trade_marks ++ [(s.current_index, .S)] }
      else s
  | .hold => s

/-- `action_clicked` (lines 204-226): apply the guarded action, then
`self.current_index += 1`; if `current_index >= len(df) - 1` the run ends
(`end_simulation` shows the final report and disables the trading buttons),
otherwise the chart/info refresh keeps the run Active. -/
def action_clicked (a : TradeAction) (s : SimState) : SimState :=
  let s1 := applyAction a s
  let s2 := { s1 with current_index := s1.current_index + 1 }
  if (s2.df.length : ℤ) - 1 ≤ s2.current_index then { s2 with buttonsEnabled := false }
  else s2

/-- `change_trading_pair` (lines 173-196): refetch+enrich the series for the
new pair, recompute the starting cursor, reset balance to 1000 and holdings
to 0, clear log and marks, re-enable the trading buttons. -/
def change_trading_pair (new_pair : String) (newDf : List Bar) (r : ℕ) (s : SimState) :
    SimState :=
  { s with symbol := new_pair
           df := newDf
           current_index := startIndex newDf.length r
           balance := 1000
           crypto_holdings := 0
           trade_log := []
           trade_marks := []
           buttonsEnabled := true }

/-- `change_timeframe` (lines 228-235): refetch+enrich the series, set
`current_index = len(df) - 100`, clear the trade marks — and nothing else:
balance, holdings, trade log and button state are left untouched. -/
def change_timeframe (timeframe : String) (newDf : List Bar) (s : SimState) : SimState :=
  { s with timeframe := timeframe
           df := newDf
           current_index := (newDf.length : ℤ) - 100
           trade_marks := [] }

/-- The all-in/all-out invariant of the spec: exactly one of
`cashBalance = 0`, `cryptoHoldings = 0` holds. -/
def AllInAllOut (s : SimState) : Prop := Xor' (s.balance = 0) (s.crypto_holdings = 0)

instance (s : SimState) : Decidable (AllInAllOut s) := by
  unfold AllInAllOut Xor'
  infer_instance

/-! ## Helper lemmas -/

lemma getD_take_drop (l : List Bar) (k m j : ℕ) (hj : j < m) (h : k + j < l.length) :
    ((l.drop k).take m).getD j default = l.getD (k + j) default := by
  rw [List.getD_eq_getElem?_getD, List.getElem?_take, if_pos hj, List.getElem?_drop,
    List.getD_eq_getElem?_getD]

lemma gain_nonneg (close : List ℚ) (j : ℕ) : 0 ≤ gain close j := by
  unfold gain
  cases delta close j with
  | none => simp
  | some d =>
      by_cases hd : 0 < d
      · simp [hd, le_of_lt hd]
      · simp [hd]

lemma loss_nonneg (close : List ℚ) (j : ℕ) : 0 ≤ loss close j := by
  unfold loss
  cases delta close j with
  | none => simp
  | some d =>
      by_cases hd : d < 0
      · simp [hd]
        linarith
      · simp [hd]

lemma avgGain_nonneg (p : ℕ) (close : List ℚ) (i : ℕ) (g : ℚ)
    (h : avgGain p close i = some g) : 0 ≤ g := by
  unfold avgGain rollingMeanAt at h
  split at h
  · injection h with h
    subst h
    apply div_nonneg _ (by positivity)
    apply List.sum_nonneg
    intro x hx
    have hx2 : x ∈ gainSeries close := List.mem_of_mem_drop (List.mem_of_mem_take hx)
    obtain ⟨j, _, rfl⟩ := List.mem_map.mp hx2
    exact gain_nonneg close j
  · cases h

lemma avgLoss_nonneg (p : ℕ) (close : List ℚ) (i : ℕ) (l : ℚ)
    (h : avgLoss p close i = some l) : 0 ≤ l := by
  unfold avgLoss rollingMeanAt at h
  split at h
  · injection h with h
    subst h
    apply div_nonneg _ (by positivity)
    apply List.sum_nonneg
    intro x hx
    have hx2 : x ∈ lossSeries close := List.mem_of_mem_drop (List.mem_of_mem_take hx)
    obtain ⟨j, _, rfl⟩ := List.mem_map.mp hx2
    exact loss_nonneg close j
  · cases h

/-! ## Claim theorems about the RSI columns -/

/-- A strictly rising 14-close series: every delta is a gain, so the 13-period
average loss is zero while the average gain is positive. -/
def climb14 : List ℚ := [1, 2, 3, 4, 5, 6, 7, 8, 9, 10, 11, 12, 13, 14]

/-- C3: for each period p in {13, 42} and every index whose trailing p-length
gain/loss windows exist, if the window's average loss is 0 and its average
gain is strictly positive then the computed RSI is exactly 100 — the
division by zero yields a definite 100, not an error or NaN. -/
theorem calculate_rsi_pure_gain_eq_100 (p : ℕ) (hp : p = 13 ∨ p = 42)
    (close : List ℚ) (i : ℕ) (g : ℚ)
    (hg : avgGain p close i = some g) (hgpos : 0 < g)
    (hl : avgLoss p close i = some 0) :
    calculate_rsi p close i = some 100 := by
  clear hp
  unfold calculate_rsi
  rw [hg, hl]
  simp [hgpos]

theorem calculate_rsi_pure_gain_eq_100_witness :
    avgGain 13 climb14 13 = some 1 ∧ avgLoss 13 climb14 13 = some 0 ∧
      calculate_rsi 13 climb14 13 = some 100 :=
  ⟨by norm_num [avgGain, rollingMeanAt, gainSeries, gain, delta, climb14, List.range_succ],
    by norm_num [avgLoss, rollingMeanAt, lossSeries, loss, delta, climb14, List.range_succ],
    calculate_rsi_pure_gain_eq_100 13 (Or.inl rfl) climb14 13 1
      (by norm_num [avgGain, rollingMeanAt, gainSeries, gain, delta, climb14, List.range_succ])
      (by norm_num)
      (by norm_num [avgLoss, rollingMeanAt, lossSeries, loss, delta, climb14,
        List.range_succ])⟩

/-- C9: every defined RSI value lies in [0, 100]; a fully flat window (gains
and losses all zero) is represented as undefined (`none`), so no defined
value is ever out of range or NaN. -/
theorem rsi_bounded (p : ℕ) (close : List ℚ) (i : ℕ) (v : ℚ)
    (h : calculate_rsi p close i = some v) : 0 ≤ v ∧ v ≤ 100 := by
  unfold calculate_rsi at h
  cases hg : avgGain p close i with
  | none => rw [hg] at h; cases h
  | some g =>
      cases hl : avgLoss p close i with
      | none => rw [hg, hl] at h; cases h
      | some l =>
          rw [hg, hl] at h
          dsimp only at h
          by_cases h0 : l = 0
          · rw [if_pos h0] at h
            by_cases hgp : 0 < g
            · rw [if_pos hgp] at h
              injection h with h
              subst h
              norm_num
            · rw [if_neg hgp] at h
              cases h
          · rw [if_neg h0] at h
            injection h with h
            subst h
            have hg0 : 0 ≤ g := avgGain_nonneg p close i g hg
            have hl0 : 0 ≤ l := avgLoss_nonneg p close i l hl
            have hlpos : 0 < l := lt_of_le_of_ne hl0 (Ne.symm h0)
            have hrs : 0 ≤ g / l := div_nonneg hg0 hl0
            have h1 : (0 : ℚ) < 1 + g / l := by linarith
            have h2 : 100 / (1 + g / l) ≤ 100 := div_le_self (by norm_num) (by linarith)
            have h3 : 0 < 100 / (1 + g / l) := div_pos (by norm_num) h1
            constructor <;> linarith

/-! ## Claim theorem about the Bollinger band columns -/

/-- Written from the spec's words, as the refinement target: the arithmetic
mean of the 20 closes `close[i-19..i]` (index `i-19+j` for `j < 20`). -/
def specMean (close : List ℚ) (i : ℕ) : ℚ :=
  (∑ j in Finset.range 20, close.getD (i - 19 + j) 0) / 20

/-- Written from the spec's words: the sample variance (Bessel divisor 19)
of the 20-close window `close[i-19..i]`; the spec's sample standard
deviation is its non-negative square root. -/
def specVar (close : List ℚ) (i : ℕ) : ℚ :=
  (∑ j in Finset.range 20, (close.getD (i - 19 + j) 0 - specMean close i) ^ 2) / 19

lemma take_drop_sum (l : List ℚ) (k m : ℕ) (h : k + m ≤ l.length) :
    ((l.drop k).take m).sum = ∑ j in Finset.range m, l.getD (k + j) 0 := by
  induction m with
  | zero => simp
  | succ m ih =>
      have hk : k + m < l.length := by omega
      rw [List.take_succ, List.sum_append, ih (by omega), Finset.sum_range_succ]
      have h1 : (l.drop k)[m]? = some l[k + m] := by
        rw [List.getElem?_drop, List.getElem?_eq_getElem hk]
      rw [h1, List.getD_eq_getElem?_getD, List.getElem?_eq_getElem hk]
      simp

lemma getD_map_of_lt (f : ℚ → ℚ) (l : List ℚ) (n : ℕ) (h : n < l.length) :
    (l.map f).getD n 0 = f (l.getD n 0) := by
  have h2 : n < (l.map f).length := by simpa using h
  rw [List.getD_eq_getElem?_getD, List.getD_eq_getElem?_getD, List.getElem?_map,
    List.getElem?_eq_getElem h]
  rfl

lemma window20_length (close : List ℚ) (i : ℕ) (h19 : 19 ≤ i) (hlen : i < close.length) :
    (window20 close i).length = 20 := by
  simp only [window20, List.length_take, List.length_drop]
  omega

lemma window20_sum (close : List ℚ) (i : ℕ) (h19 : 19 ≤ i) (hlen : i < close.length) :
    (window20 close i).sum = ∑ j in Finset.range 20, close.getD (i - 19 + j) 0 :=
  take_drop_sum close (i - 19) 20 (by omega)

lemma mean_window20 (close : List ℚ) (i : ℕ) (h19 : 19 ≤ i) (hlen : i < close.length) :
    mean (window20 close i) = specMean close i := by
  unfold mean specMean
  rw [window20_length close i h19 hlen, window20_sum close i h19 hlen]
  norm_num

lemma sampleVar_window20 (close : List ℚ) (i : ℕ) (h19 : 19 ≤ i) (hlen : i < close.length) :
    sampleVar (window20 close i) = specVar close i := by
  unfold sampleVar specVar
  rw [window20_length close i h19 hlen, mean_window20 close i h19 hlen]
  have hmap : (window20 close i).map (fun x => (x - specMean close i) ^ 2) =
      ((close.map (fun x => (x - specMean close i) ^ 2)).drop (i - 19)).take 20 := by
    rw [window20, List.map_take, List.map_drop]
  rw [hmap, take_drop_sum _ (i - 19) 20 (by simpa using by omega)]
  have hpt : ∀ j ∈ Finset.range 20,
      (close.map (fun x => (x - specMean close i) ^ 2)).getD (i - 19 + j) 0 =
        (close.getD (i - 19 + j) 0 - specMean close i) ^ 2 := by
    intro j hj
    have hj20 : j < 20 := Finset.mem_range.mp hj
    exact getD_map_of_lt _ close (i - 19 + j) (by omega)
  rw [Finset.sum_congr rfl hpt]
  norm_num

lemma sampleVar_window20_nonneg (close : List ℚ) (i : ℕ) :
    0 ≤ sampleVar (window20 close i) := by
  unfold sampleVar
  apply div_nonneg _ (by positivity)
  apply List.sum_nonneg
  intro x hx
  obtain ⟨a, _, rfl⟩ := List.mem_map.mp hx
  positivity

/-- C2: for a series with at least 20 closes and every row `i ≥ 19`,
`middle_band[i]` is the arithmetic mean of `close[i-19..i]`, `std[i]` is the
sample standard deviation of that window (the non-negative real whose square
is the Bessel-corrected variance), `upper_band[i] = middle_band[i] + 2·std[i]`
and `lower_band[i] = middle_band[i] - 2·std[i]`; all four columns are
undefined for every row `j < 19`. -/
theorem calculate_indicators_bollinger (close : List ℚ) (i : ℕ)
    (h20 : 20 ≤ close.length) (h19 : 19 ≤ i) (hlen : i < close.length) :
    middle_band close i = some (specMean close i) ∧
    (∃ s : ℝ, std close i = some s ∧ 0 ≤ s ∧ s ^ 2 = ((specVar close i : ℚ) : ℝ) ∧
      upper_band close i = some (((specMean close i : ℚ) : ℝ) + 2 * s) ∧
      lower_band close i = some (((specMean close i : ℚ) : ℝ) - 2 * s)) ∧
    (∀ j, j < 19 → middle_band close j = none ∧ std close j = none ∧
      upper_band close j = none ∧ lower_band close j = none) := by
  clear h20
  have hcond : 19 ≤ i ∧ i < close.length := ⟨h19, hlen⟩
  have hmid : middle_band close i = some (specMean close i) := by
    unfold middle_band
    rw [if_pos hcond, mean_window20 close i h19 hlen]
  have hstd : std close i = some (Real.sqrt ((sampleVar (window20 close i) : ℚ) : ℝ)) := by
    unfold std
    rw [if_pos hcond]
  refine ⟨hmid, ⟨Real.sqrt ((sampleVar (window20 close i) : ℚ) : ℝ), hstd,
    Real.sqrt_nonneg _, ?_, ?_, ?_⟩, ?_⟩
  · rw [Real.sq_sqrt (by exact_mod_cast sampleVar_window20_nonneg close i),
      sampleVar_window20 close i h19 hlen]
  · unfold upper_band
    rw [hmid, hstd]
    dsimp only
    rw [mul_comm]
  · unfold lower_band
    rw [hmid, hstd]
    dsimp only
    rw [mul_comm]
  · intro j hj
    have hnot : ¬ (19 ≤ j ∧ j < close.length) := by omega
    refine ⟨?_, ?_, ?_, ?_⟩
    · unfold middle_band
      rw [if_neg hnot]
    · unfold std
      rw [if_neg hnot]
    · unfold upper_band middle_band
      rw [if_neg hnot]
    · unfold lower_band middle_band
      rw [if_neg hnot]

theorem calculate_indicators_bollinger_witness :
    20 ≤ (List.replicate 21 (1 : ℚ)).length ∧
      middle_band (List.replicate 21 (1 : ℚ)) 19 =
        some (specMean (List.replicate 21 (1 : ℚ)) 19) :=
  ⟨by decide,
    (calculate_indicators_bollinger (List.replicate 21 (1 : ℚ)) 19 (by decide) (by decide)
      (by decide)).1⟩

theorem rsi_bounded_witness :
    calculate_rsi 2 [1, 2, 1] 2 = some 50 ∧ (0 ≤ (50 : ℚ) ∧ (50 : ℚ) ≤ 100) :=
  ⟨by norm_num [calculate_rsi, avgGain, avgLoss, rollingMeanAt, gainSeries, lossSeries,
      gain, loss, delta, List.range_succ],
    rsi_bounded 2 [1, 2, 1] 2 50
      (by norm_num [calculate_rsi, avgGain, avgLoss, rollingMeanAt, gainSeries, lossSeries,
        gain, loss, delta, List.range_succ])⟩

/-! ## Claim theorem about the pattern detector -/

/-- Written from the claim's words, as the refinement target: the three
conditions on the 5-bar window `[i-4..i]` — (1) the first bar closes more
than 9% above its open, (2) none of the three middle bars has a low below
the midpoint of the first bar's high-low range, (3) the last bar is bullish
and its range strictly engulfs the middle bars' combined range. -/
def threeElementsWindow (df : List Bar) (i : ℕ) : Prop :=
  (df.getD (i - 4) default).close > (df.getD (i - 4) default).open_ * (109 / 100 : ℚ) ∧
  ¬ (df.getD (i - 3) default).low <
      ((df.getD (i - 4) default).high + (df.getD (i - 4) default).low) / 2 ∧
  ¬ (df.getD (i - 2) default).low <
      ((df.getD (i - 4) default).high + (df.getD (i - 4) default).low) / 2 ∧
  ¬ (df.getD (i - 1) default).low <
      ((df.getD (i - 4) default).high + (df.getD (i - 4) default).low) / 2 ∧
  (df.getD i default).close > (df.getD i default).open_ ∧
  (df.getD i default).high >
    max (max (df.getD (i - 3) default).high (df.getD (i - 2) default).high)
      (df.getD (i - 1) default).high ∧
  (df.getD i default).low <
    min (min (df.getD (i - 3) default).low (df.getD (i - 2) default).low)
      (df.getD (i - 1) default).low

lemma pattern_true_iff (w : List Bar) :
    is_three_elements_pattern w = true ↔
      ((w.getD 0 default).close > (w.getD 0 default).open_ * (109 / 100 : ℚ) ∧
       ¬ (w.getD 1 default).low < ((w.getD 0 default).high + (w.getD 0 default).low) / 2 ∧
       ¬ (w.getD 2 default).low < ((w.getD 0 default).high + (w.getD 0 default).low) / 2 ∧
       ¬ (w.getD 3 default).low < ((w.getD 0 default).high + (w.getD 0 default).low) / 2 ∧
       (w.getD 4 default).close > (w.getD 4 default).open_ ∧
       (w.getD 4 default).high >
         max (max (w.getD 1 default).high (w.getD 2 default).high) (w.getD 3 default).high ∧
       (w.getD 4 default).low <
         min (min (w.getD 1 default).low (w.getD 2 default).low) (w.getD 3 default).low) := by
  unfold is_three_elements_pattern
  dsimp only
  split_ifs with ha hb hc <;> simp_all [not_lt] <;>
    first
    | tauto
    | (intros; rcases hb with hb | hb | hb <;> linarith)

lemma pattern_slice_iff (df : List Bar) (i : ℕ) (h4 : 4 ≤ i) (hlen : i < df.length) :
    is_three_elements_pattern ((df.drop (i - 4)).take 5) = true ↔ threeElementsWindow df i := by
  rw [pattern_true_iff]
  have e0 : ((df.drop (i - 4)).take 5).getD 0 default = df.getD (i - 4) default := by
    rw [getD_take_drop df (i - 4) 5 0 (by omega) (by omega)]
    simp
  have e1 : ((df.drop (i - 4)).take 5).getD 1 default = df.getD (i - 3) default := by
    rw [getD_take_drop df (i - 4) 5 1 (by omega) (by omega)]
    congr 1
    omega
  have e2 : ((df.drop (i - 4)).take 5).getD 2 default = df.getD (i - 2) default := by
    rw [getD_take_drop df (i - 4) 5 2 (by omega) (by omega)]
    congr 1
    omega
  have e3 : ((df.drop (i - 4)).take 5).getD 3 default = df.getD (i - 1) default := by
    rw [getD_take_drop df (i - 4) 5 3 (by omega) (by omega)]
    congr 1
    omega
  have e4 : ((df.drop (i - 4)).take 5).getD 4 default = df.getD i default := by
    rw [getD_take_drop df (i - 4) 5 4 (by omega) (by omega)]
    congr 1
    omega
  rw [e0, e1, e2, e3, e4]
  unfold threeElementsWindow
  tauto

/-- C1: the detector emits `(i, "buy")` exactly at the indices `4 ≤ i < N`
whose 5-bar window `[i-4..i]` satisfies the three conditions: first bar's
close > open × 1.09; none of the three middle bars' lows below the midpoint
of the first bar's range; last bar bullish with high strictly above the
middle bars' maximum high and low strictly below their minimum low. -/
theorem three_elements_signal_iff (df : List Bar) (i : ℕ) (h4 : 4 ≤ i)
    (hlen : i < df.length) :
    (i, "buy") ∈ find_three_elements_signals df ↔ threeElementsWindow df i := by
  unfold find_three_elements_signals
  rw [List.mem_filterMap]
  constructor
  · rintro ⟨a, ha, hfa⟩
    by_cases hp : is_three_elements_pattern ((df.drop (a - 4)).take 5)
    · rw [if_pos hp] at hfa
      injection hfa with hfa
      have hai : a = i := congrArg Prod.fst hfa
      subst hai
      exact (pattern_slice_iff df a h4 hlen).mp hp
    · rw [if_neg hp] at hfa
      cases hfa
  · intro hw
    refine ⟨i, ?_, ?_⟩
    · rw [List.mem_range'_1]
      omega
    · rw [if_pos ((pattern_slice_iff df i h4 hlen).mpr hw)]

/-- Example 2 of the spec: bar0 closes 10% above its open, the three middle
bars hold above the midpoint 105.5 of bar0's range, and bar4 is a bullish
candle engulfing the middle bars' combined range. -/
def exampleWindow : List Bar :=
  [⟨100, 112, 99, 110, 1⟩, ⟨107, 108, 106, 107, 1⟩, ⟨107, 108, 106, 107, 1⟩,
   ⟨107, 108, 106, 107, 1⟩, ⟨106, 113, 105, 112, 1⟩]

theorem three_elements_signal_iff_witness :
    (4, "buy") ∈ find_three_elements_signals exampleWindow :=
  (three_elements_signal_iff exampleWindow 4 (by norm_num)
    (by norm_num [exampleWindow])).mpr
    (by norm_num [threeElementsWindow, exampleWindow])

/-! ## Simulator field lemmas -/

lemma applyAction_df (a : TradeAction) (s : SimState) : (applyAction a s).df = s.df := by
  cases a <;> unfold applyAction <;> dsimp only <;> split <;> rfl

lemma applyAction_current_index (a : TradeAction) (s : SimState) :
    (applyAction a s).current_index = s.current_index := by
  cases a <;> unfold applyAction <;> dsimp only <;> split <;> rfl

lemma applyAction_buttonsEnabled (a : TradeAction) (s : SimState) :
    (applyAction a s).buttonsEnabled = s.buttonsEnabled := by
  cases a <;> unfold applyAction <;> dsimp only <;> split <;> rfl

lemma action_clicked_balance (a : TradeAction) (s : SimState) :
    (action_clicked a s).balance = (applyAction a s).balance := by
  unfold action_clicked
  dsimp only
  split <;> rfl

lemma action_clicked_crypto_holdings (a : TradeAction) (s : SimState) :
    (action_clicked a s).crypto_holdings = (applyAction a s).crypto_holdings := by
  unfold action_clicked
  dsimp only
  split <;> rfl

lemma action_clicked_trade_log (a : TradeAction) (s : SimState) :
    (action_clicked a s).trade_log = (applyAction a s).trade_log := by
  unfold action_clicked
  dsimp only
  split <;> rfl

lemma action_clicked_df (a : TradeAction) (s : SimState) :
    (action_clicked a s).df = s.df := by
  unfold action_clicked
  dsimp only
  split <;> rw [applyAction_df]

lemma action_clicked_current_index (a : TradeAction) (s : SimState) :
    (action_clicked a s).current_index = s.current_index + 1 := by
  unfold action_clicked
  dsimp only
  split <;> rw [applyAction_current_index]

lemma action_clicked_buttons_of_lt (a : TradeAction) (s : SimState)
    (hen : s.buttonsEnabled = true) (hlt : s.current_index + 1 < (s.df.length : ℤ) - 1) :
    (action_clicked a s).buttonsEnabled = true := by
  unfold action_clicked
  dsimp only
  rw [if_neg (by rw [applyAction_df, applyAction_current_index]; omega)]
  rw [applyAction_buttonsEnabled]
  exact hen

lemma applyAction_hold (s : SimState) : applyAction .hold s = s := rfl

lemma applyAction_buy_zero (s : SimState) (hb : s.balance = 0) : applyAction .buy s = s := by
  unfold applyAction
  dsimp only
  rw [if_neg (by rw [hb]; exact lt_irrefl 0)]

lemma applyAction_sell_zero (s : SimState) (hh : s.crypto_holdings = 0) :
    applyAction .sell s = s := by
  unfold applyAction
  dsimp only
  rw [if_neg (by rw [hh]; exact lt_irrefl 0)]

lemma currentClose_pos (s : SimState) (hpos : ∀ b ∈ s.df, 0 < b.close)
    (hi : 0 ≤ s.current_index) (hin : s.current_index < (s.df.length : ℤ)) :
    0 < currentClose s := by
  unfold currentClose pyIloc
  rw [if_pos hi]
  have hlt : s.current_index.toNat < s.df.length := by omega
  rw [List.getElem?_eq_getElem hlt]
  exact hpos _ (List.getElem_mem hlt)

lemma startIndex_bounds (n : ℕ) (r : ℕ) :
    42 ≤ startIndex n r ∧ startIndex n r ≤ max 42 ((n : ℤ) - 100) := by
  unfold startIndex randint
  dsimp only
  split_ifs with h
  · have h1 : 0 ≤ (r : ℤ) % ((n : ℤ) - 100 - 42 + 1) := Int.emod_nonneg _ (by omega)
    have h2 : (r : ℤ) % ((n : ℤ) - 100 - 42 + 1) < (n : ℤ) - 100 - 42 + 1 :=
      Int.emod_lt_of_pos _ (by omega)
    refine ⟨by omega, ?_⟩
    rw [max_eq_right (le_of_lt h)]
    omega
  · exact ⟨le_refl 42, le_max_left _ _⟩

/-! ## Claim theorems about the simulator -/

/-- Example 3 of the spec: a series whose closes are 50, 60, 70, 80 (the
other OHLCV columns are irrelevant to the accounting). -/
def exampleDf : List Bar :=
  [⟨0, 0, 0, 50, 0⟩, ⟨0, 0, 0, 60, 0⟩, ⟨0, 0, 0, 70, 0⟩, ⟨0, 0, 0, 80, 0⟩]

/-- A fresh Active state on `exampleDf` with the cursor at row 0. -/
def exampleS0 : SimState :=
  { symbol := "BTC/USDT"
    timeframe := "1d"
    df := exampleDf
    current_index := 0
    balance := 1000
    crypto_holdings := 0
    trade_log := []
    trade_marks := []
    buttonsEnabled := true }

/-- C4: a `sell` with positive holdings sets the balance to
`holdings × close[cursor]`, logs a profit/loss percentage of
`(proceeds − 1000)/1000 × 100` measured against the fixed initial capital
1000, and zeroes the holdings; in particular buying 1000 at close 50 and
selling at close 60 yields balance 1200 and a logged profit of 20%. -/
theorem sell_accounting (s : SimState) (h : 0 < s.crypto_holdings)
    (hi : 0 ≤ s.current_index) (hin : s.current_index < (s.df.length : ℤ)) :
    (action_clicked .sell s).balance = s.crypto_holdings * currentClose s ∧
    (action_clicked .sell s).crypto_holdings = 0 ∧
    (action_clicked .sell s).trade_log = s.trade_log ++
      [TradeEntry.sold s.crypto_holdings (currentClose s)
        ((s.crypto_holdings * currentClose s - 1000) / 1000 * 100)] ∧
    (action_clicked .buy exampleS0).crypto_holdings = 20 ∧
    (action_clicked .buy exampleS0).balance = 0 ∧
    (action_clicked .sell (action_clicked .buy exampleS0)).balance = 1200 ∧
    (action_clicked .sell (action_clicked .buy exampleS0)).trade_log =
      [TradeEntry.bought 20 50, TradeEntry.sold 20 60 20] := by
  refine ⟨?_, ?_, ?_, ?_, ?_, ?_, ?_⟩
  · rw [action_clicked_balance]
    unfold applyAction
    dsimp only
    rw [if_pos h]
  · rw [action_clicked_crypto_holdings]
    unfold applyAction
    dsimp only
    rw [if_pos h]
  · rw [action_clicked_trade_log]
    unfold applyAction
    dsimp only
    rw [if_pos h]
  · norm_num [action_clicked, applyAction, currentClose, pyIloc, exampleS0, exampleDf]
  · norm_num [action_clicked, applyAction, currentClose, pyIloc, exampleS0, exampleDf]
  · norm_num [action_clicked, applyAction, currentClose, pyIloc, exampleS0, exampleDf]
  · norm_num [action_clicked, applyAction, currentClose, pyIloc, exampleS0, exampleDf]

theorem sell_accounting_witness :
    0 < (action_clicked .buy exampleS0).crypto_holdings ∧
    (action_clicked .sell (action_clicked .buy exampleS0)).crypto_holdings = 0 :=
  ⟨by norm_num [action_clicked, applyAction, currentClose, pyIloc, exampleS0, exampleDf],
    (sell_accounting (action_clicked .buy exampleS0)
      (by norm_num [action_clicked, applyAction, currentClose, pyIloc, exampleS0, exampleDf])
      (by norm_num [action_clicked, applyAction, currentClose, pyIloc, exampleS0, exampleDf])
      (by norm_num [action_clicked, applyAction, currentClose, pyIloc, exampleS0,
        exampleDf])).2.1⟩

/-- A 3-bar series whose first two closes are both 50, so that a buy at
row 0 and a sell at row 1 happen at an unchanged price. -/
def flatDf : List Bar := [⟨0, 0, 0, 50, 0⟩, ⟨0, 0, 0, 50, 0⟩, ⟨0, 0, 0, 70, 0⟩]

/-- The fresh Active state on `flatDf`. -/
def flatS0 : SimState :=
  { symbol := "BTC/USDT"
    timeframe := "1d"
    df := flatDf
    current_index := 0
    balance := 1000
    crypto_holdings := 0
    trade_log := []
    trade_marks := []
    buttonsEnabled := true }

/-- C5: from an Active state with positive balance, no holdings and positive
closes, a `buy` followed immediately by a `sell` at an unchanged close
price restores the cash balance exactly. -/
theorem buy_sell_roundtrip (s : SimState)
    (hA : s.buttonsEnabled = true) (hb : 0 < s.balance) (hh : s.crypto_holdings = 0)
    (hpos : ∀ b ∈ s.df, 0 < b.close)
    (hi : 0 ≤ s.current_index) (hin : s.current_index + 1 < (s.df.length : ℤ))
    (hsame : currentClose (action_clicked .buy s) = currentClose s) :
    (action_clicked .sell (action_clicked .buy s)).balance = s.balance := by
  clear hA
  have hc : 0 < currentClose s := currentClose_pos s hpos hi (by omega)
  have h1h : (action_clicked .buy s).crypto_holdings = s.balance / currentClose s := by
    rw [action_clicked_crypto_holdings]
    unfold applyAction
    dsimp only
    rw [if_pos hb]
    dsimp only
    rw [hh, zero_add]
  have hpos1 : 0 < (action_clicked .buy s).crypto_holdings := by
    rw [h1h]
    exact div_pos hb hc
  rw [action_clicked_balance]
  unfold applyAction
  dsimp only
  rw [if_pos hpos1]
  dsimp only
  rw [h1h, hsame]
  exact div_mul_cancel₀ s.balance hc.ne'

theorem buy_sell_roundtrip_witness :
    0 < flatS0.balance ∧
    (action_clicked .sell (action_clicked .buy flatS0)).balance = flatS0.balance :=
  ⟨by norm_num [flatS0],
    buy_sell_roundtrip flatS0 rfl (by norm_num [flatS0]) rfl
      (by intro b hb; fin_cases hb <;> norm_num [flatS0, flatDf])
      (by norm_num [flatS0]) (by norm_num [flatS0, flatDf])
      (by norm_num [action_clicked, applyAction, currentClose, pyIloc, flatS0, flatDf])⟩

/-- C6: with strictly positive closes, the all-in/all-out predicate
(`cashBalance = 0` XOR `cryptoHoldings = 0`) holds in the freshly
initialised state (balance 1000, holdings 0) and is preserved by every
`buy`, `sell` and `hold` click, hence holds at every Active-state
observation. -/
theorem all_in_all_out_invariant :
    (∀ (df : List Bar) (r : ℕ), AllInAllOut (initSimState df r)) ∧
    ∀ (s : SimState) (a : TradeAction), (∀ b ∈ s.df, 0 < b.close) →
      0 ≤ s.current_index → s.current_index < (s.df.length : ℤ) →
      AllInAllOut s → AllInAllOut (action_clicked a s) := by
  constructor
  · intro df r
    unfold AllInAllOut initSimState Xor'
    norm_num
  · intro s a hpos hi hin hInv
    have hc : 0 < currentClose s := currentClose_pos s hpos hi hin
    unfold AllInAllOut at hInv ⊢
    rw [action_clicked_balance, action_clicked_crypto_holdings]
    cases a with
    | hold => exact hInv
    | buy =>
        unfold applyAction
        dsimp only
        by_cases hb : 0 < s.balance
        · rw [if_pos hb]
          dsimp only
          have hh : s.crypto_holdings = 0 := by
            rcases hInv with ⟨h1, _⟩ | ⟨h1, _⟩
            · exact absurd h1 (ne_of_gt hb)
            · exact h1
          left
          refine ⟨rfl, ?_⟩
          rw [hh, zero_add]
          exact (div_pos hb hc).ne'
        · rw [if_neg hb]
          exact hInv
    | sell =>
        unfold applyAction
        dsimp only
        by_cases hs : 0 < s.crypto_holdings
        · rw [if_pos hs]
          dsimp only
          right
          exact ⟨rfl, (mul_pos hs hc).ne'⟩
        · rw [if_neg hs]
          exact hInv

theorem all_in_all_out_invariant_witness :
    AllInAllOut (initSimState exampleDf 0) ∧ AllInAllOut (action_clicked .buy exampleS0) :=
  ⟨all_in_all_out_invariant.1 exampleDf 0,
    all_in_all_out_invariant.2 exampleS0 .buy
      (by intro b hb; fin_cases hb <;> norm_num [exampleS0, exampleDf])
      (by norm_num [exampleS0]) (by norm_num [exampleS0, exampleDf])
      (by unfold AllInAllOut exampleS0 Xor'; norm_num)⟩

/-- C7 counterexample: after a buy (balance 0, holdings 20, one log entry),
a timeframe change keeps the stale balance, holdings and trade log, so a
timeframe change is not the full reset the claim describes. -/
theorem change_timeframe_not_full_reset :
    (change_timeframe "4h" exampleDf (action_clicked .buy exampleS0)).balance ≠ 1000 ∧
    (change_timeframe "4h" exampleDf (action_clicked .buy exampleS0)).crypto_holdings ≠ 0 ∧
    (change_timeframe "4h" exampleDf (action_clicked .buy exampleS0)).trade_log ≠ [] := by
  refine ⟨?_, ?_, ?_⟩ <;>
    norm_num [change_timeframe, action_clicked, applyAction, currentClose, pyIloc,
      exampleS0, exampleDf]

/-- C7 (amended): a pair change is a full reset — new series, starting
cursor in `[42, max 42 (N−100)]`, balance 1000, holdings 0, cleared log and
marks, buttons re-enabled — while a timeframe change only replaces the
series, sets the cursor to `N − 100` and clears the trade marks, leaving
balance, holdings, trade log and button state untouched. -/
theorem reset_behavior (s : SimState) (new_pair tf : String)
    (newDf newDf2 : List Bar) (r : ℕ) :
    (change_trading_pair new_pair newDf r s).balance = 1000 ∧
    (change_trading_pair new_pair newDf r s).crypto_holdings = 0 ∧
    (change_trading_pair new_pair newDf r s).trade_log = [] ∧
    (change_trading_pair new_pair newDf r s).trade_marks = [] ∧
    (change_trading_pair new_pair newDf r s).buttonsEnabled = true ∧
    (change_trading_pair new_pair newDf r s).df = newDf ∧
    42 ≤ (change_trading_pair new_pair newDf r s).current_index ∧
    (change_trading_pair new_pair newDf r s).current_index ≤
      max 42 ((newDf.length : ℤ) - 100) ∧
    (change_timeframe tf newDf2 s).df = newDf2 ∧
    (change_timeframe tf newDf2 s).current_index = (newDf2.length : ℤ) - 100 ∧
    (change_timeframe tf newDf2 s).trade_marks = [] ∧
    (change_timeframe tf newDf2 s).balance = s.balance ∧
    (change_timeframe tf newDf2 s).crypto_holdings = s.crypto_holdings ∧
    (change_timeframe tf newDf2 s).trade_log = s.trade_log ∧
    (change_timeframe tf newDf2 s).buttonsEnabled = s.buttonsEnabled :=
  ⟨rfl, rfl, rfl, rfl, rfl, rfl, (startIndex_bounds newDf.length r).1,
    (startIndex_bounds newDf.length r).2, rfl, rfl, rfl, rfl, rfl, rfl, rfl⟩

/-- C8 counterexample: a buy clicked with zero balance produces a state
identical to a hold — balance, holdings, log, marks and button state all
unchanged — so the rejection is silent and unobservable to the caller,
contrary to the claim that it is reported. -/
theorem rejected_buy_unobservable :
    action_clicked .buy { exampleS0 with balance := 0 } =
      action_clicked .hold { exampleS0 with balance := 0 } ∧
    (action_clicked .buy { exampleS0 with balance := 0 }).trade_log =
      ({ exampleS0 with balance := 0 } : SimState).trade_log := by
  constructor <;> norm_num [action_clicked, applyAction, exampleS0, exampleDf]

/-- C8 (amended): a buy with zero balance and a sell with zero holdings are
silent no-ops on balance, holdings and log — the cursor still advances, the
run stays Active while the advanced cursor is below `N − 1`, and the
resulting state is indistinguishable from a hold; nothing is reported. -/
theorem rejected_actions_noop (s : SimState) :
    (s.balance = 0 → action_clicked .buy s = action_clicked .hold s) ∧
    (s.crypto_holdings = 0 → action_clicked .sell s = action_clicked .hold s) ∧
    (s.balance = 0 →
      (action_clicked .buy s).balance = s.balance ∧
      (action_clicked .buy s).crypto_holdings = s.crypto_holdings ∧
      (action_clicked .buy s).trade_log = s.trade_log ∧
      (s.buttonsEnabled = true → s.current_index + 1 < (s.df.length : ℤ) - 1 →
        (action_clicked .buy s).buttonsEnabled = true)) ∧
    (s.crypto_holdings = 0 →
      (action_clicked .sell s).balance = s.balance ∧
      (action_clicked .sell s).crypto_holdings = s.crypto_holdings ∧
      (action_clicked .sell s).trade_log = s.trade_log ∧
      (s.buttonsEnabled = true → s.current_index + 1 < (s.df.length : ℤ) - 1 →
        (action_clicked .sell s).buttonsEnabled = true)) := by
  refine ⟨?_, ?_, ?_, ?_⟩
  · intro hb
    unfold action_clicked
    rw [applyAction_buy_zero s hb, applyAction_hold]
  · intro hh
    unfold action_clicked
    rw [applyAction_sell_zero s hh, applyAction_hold]
  · intro hb
    refine ⟨?_, ?_, ?_, fun hen hlt => action_clicked_buttons_of_lt .buy s hen hlt⟩
    · rw [action_clicked_balance, applyAction_buy_zero s hb]
    · rw [action_clicked_crypto_holdings, applyAction_buy_zero s hb]
    · rw [action_clicked_trade_log, applyAction_buy_zero s hb]
  · intro hh
    refine ⟨?_, ?_, ?_, fun hen hlt => action_clicked_buttons_of_lt .sell s hen hlt⟩
    · rw [action_clicked_balance, applyAction_sell_zero s hh]
    · rw [action_clicked_crypto_holdings, applyAction_sell_zero s hh]
    · rw [action_clicked_trade_log, applyAction_sell_zero s hh]

theorem rejected_actions_noop_witness :
    ({ exampleS0 with balance := 0 } : SimState).balance = 0 ∧
    action_clicked .buy { exampleS0 with balance := 0 } =
      action_clicked .hold { exampleS0 with balance := 0 } :=
  ⟨rfl, (rejected_actions_noop { exampleS0 with balance := 0 }).1 rfl⟩

/-- C10: a timeframe change sets the cursor to exactly `N − 100` with no
lower clamp, so any series shorter than 100 bars leaves the cursor negative
and below the minimum valid start index 42 that the initialisation and
pair-change cursor computation always enforces. -/
theorem change_timeframe_cursor_unclamped (s : SimState) (tf : String) (newDf : List Bar) :
    (change_timeframe tf newDf s).current_index = (newDf.length : ℤ) - 100 ∧
    (newDf.length < 100 →
      (change_timeframe tf newDf s).current_index < 0 ∧
      (change_timeframe tf newDf s).current_index < 42) ∧
    ∀ (n r : ℕ), 42 ≤ startIndex n r := by
  refine ⟨rfl, ?_, fun n r => (startIndex_bounds n r).1⟩
  intro h
  constructor <;> simp only [change_timeframe] <;> omega

theorem change_timeframe_cursor_unclamped_witness :
    (List.replicate 50 (default : Bar)).length < 100 ∧
    (change_timeframe "1h" (List.replicate 50 (default : Bar)) exampleS0).current_index < 0 :=
  ⟨by norm_num,
    ((change_timeframe_cursor_unclamped exampleS0 "1h" (List.replicate 50 default)).2.1
      (by norm_num)).1⟩

end Simu
